import Mathlib

/-!
Shallow embedding of `src/api/utils/utility.h` of the weserv image service
(geometry, format capability, metadata and deadline-governor utilities),
together with theorems settling the specification claims about it.

Machine `int` values are modelled as `ℤ` (no operation here approaches the
32-bit range on the inputs the claims discuss), C++ `double`/`float`
arithmetic as exact `ℚ` arithmetic, and the opaque libvips image handle as
either a small state record (metadata, deadline bookkeeping) or an explicit
tree of backend operations (region extraction / vertical join), whichever
the function under study observes.
-/

namespace Weserv

/-- Modelled from the spec: `enums.h` is not part of the excerpted sources;
§3 of the spec lists the recognized decoded-source kinds. -/
inductive ImageType where
  | Jpeg | Png | Webp | Tiff | Gif | Svg | Pdf | Heif | Magick | Unknown
deriving DecidableEq, Repr

/-- Modelled from the spec: `enums.h` is not part of the excerpted sources;
§3 of the spec lists the encodable target kinds. -/
inductive Output where
  | Jpeg | Png | Webp | Avif | Tiff | Gif | Json
deriving DecidableEq, Repr

/-- Modelled from the spec: `enums.h` is not part of the excerpted sources;
§3 of the spec lists the nine anchor values. -/
inductive Position where
  | TopLeft | Top | TopRight | Left | Centre | Right | BottomLeft | Bottom | BottomRight
deriving DecidableEq, Repr

/-- Modelled from the spec: the numeric values of the `Output` enumerators
are declared in the missing `enums.h`; the spec (§4.1, §6) fixes that bit i
(i = 1..7) of the capability mask corresponds to one `Output` value `1<<i`,
with bit 1 = Jpeg and bit 3 = Avif per the worked example in §8. This is the
inverse cast `static_cast<Output>(1 << i)` used by `supported_savers_string`;
values carrying no enumerator fall to the `default` branch, i.e. `Png`. -/
def outputOfValue (v : Nat) : Output :=
  if v = 1 <<< 1 then Output.Jpeg
  else if v = 1 <<< 2 then Output.Webp
  else if v = 1 <<< 3 then Output.Avif
  else if v = 1 <<< 4 then Output.Tiff
  else if v = 1 <<< 5 then Output.Gif
  else if v = 1 <<< 6 then Output.Png
  else if v = 1 <<< 7 then Output.Json
  else Output.Png

/-- Function `determine_image_extension` of `utility.h`: a total switch on `Output`,
defaulting to ".png". -/
def determine_image_extension (output : Output) : String :=
  match output with
  | Output.Jpeg => ".jpg"
  | Output.Webp => ".webp"
  | Output.Avif => ".avif"
  | Output.Tiff => ".tiff"
  | Output.Gif => ".gif"
  | Output.Json => ".json"
  | Output.Png => ".png"

/-- Function `supported_savers_string` of `utility.h`: iterate bit indices 1..7 in
ascending order; for each set bit append the extension of the corresponding
`Output` value minus its leading dot, separated by ", ". -/
def supported_savers_string (msk : Nat) : String :=
  (List.range' 1 7).foldl
    (fun result i =>
      let output := 1 <<< i
      if msk &&& output ≠ 0 then
        let saver := (determine_image_extension (outputOfValue output)).drop 1
        if result = "" then saver else result ++ ", " ++ saver
      else result)
    ""

/-- Join a list of strings with the separator ", ". -/
def commaJoin : List String → String
  | [] => ""
  | [s] => s
  | s :: t :: rest => s ++ ", " ++ commaJoin (t :: rest)

/-- Function `to_output` of `utility.h`: total mapping from `ImageType` to `Output`,
defaulting to Png. -/
def to_output (image_type : ImageType) : Output :=
  match image_type with
  | ImageType.Jpeg => Output.Jpeg
  | ImageType.Webp => Output.Webp
  | ImageType.Heif => Output.Avif
  | ImageType.Tiff => Output.Tiff
  | ImageType.Gif => Output.Gif
  | _ => Output.Png

/-- The `VIPS_FOREIGN_LOAD_GIF` macro of `utility.h`: libvips ≥ 8.11 uses
libnsgif, older versions giflib; exactly one of the two names is active at
build time, selected here by the flag `vipsAtLeast8_11`. -/
def VIPS_FOREIGN_LOAD_GIF (vipsAtLeast8_11 : Bool) : String :=
  if vipsAtLeast8_11 then "VipsForeignLoadNsgif" else "VipsForeignLoadGif"

/-- Does the first list lead the second, character by character? -/
def chars_lead : List Char → List Char → Bool
  | [], _ => true
  | _ :: _, [] => false
  | p :: ps, s :: ss => p == s && chars_lead ps ss

/-- Translation of `s.rfind(p, 0) == 0` of C++: does `s` start with `p`? Stated over the
character data so that it is structurally recursive. -/
def starts_with (s p : String) : Bool := chars_lead p.data s.data

/-- Function `determine_image_type` of `utility.h`: match the loader name by prefix
(`loader.rfind(p, 0) == 0` is "loader starts with p") against the fixed
chain of known loader-name heads; no match yields `Unknown`. -/
def determine_image_type (vipsAtLeast8_11 : Bool) (loader : String) : ImageType :=
  if starts_with loader "VipsForeignLoadJpeg" then ImageType.Jpeg
  else if starts_with loader "VipsForeignLoadPng" then ImageType.Png
  else if starts_with loader "VipsForeignLoadWebp" then ImageType.Webp
  else if starts_with loader "VipsForeignLoadTiff" then ImageType.Tiff
  else if starts_with loader (VIPS_FOREIGN_LOAD_GIF vipsAtLeast8_11) then ImageType.Gif
  else if starts_with loader "VipsForeignLoadSvg" then ImageType.Svg
  else if starts_with loader "VipsForeignLoadPdf" then ImageType.Pdf
  else if starts_with loader "VipsForeignLoadHeif" then ImageType.Heif
  else if starts_with loader "VipsForeignLoadMagick" then ImageType.Magick
  else ImageType.Unknown

/-- The ordered table of loader-name heads `determine_image_type` consults,
paired with the `ImageType` each one selects. -/
def loaderTable (vipsAtLeast8_11 : Bool) : List (String × ImageType) :=
  [("VipsForeignLoadJpeg", ImageType.Jpeg),
   ("VipsForeignLoadPng", ImageType.Png),
   ("VipsForeignLoadWebp", ImageType.Webp),
   ("VipsForeignLoadTiff", ImageType.Tiff),
   (VIPS_FOREIGN_LOAD_GIF vipsAtLeast8_11, ImageType.Gif),
   ("VipsForeignLoadSvg", ImageType.Svg),
   ("VipsForeignLoadPdf", ImageType.Pdf),
   ("VipsForeignLoadHeif", ImageType.Heif),
   ("VipsForeignLoadMagick", ImageType.Magick)]

/-- Function `image_type_id` of `utility.h`. -/
def image_type_id (image_type : ImageType) : String :=
  match image_type with
  | ImageType.Jpeg => "jpeg"
  | ImageType.Png => "png"
  | ImageType.Webp => "webp"
  | ImageType.Tiff => "tiff"
  | ImageType.Gif => "gif"
  | ImageType.Svg => "svg"
  | ImageType.Pdf => "pdf"
  | ImageType.Heif => "heif"
  | ImageType.Magick => "magick"
  | ImageType.Unknown => "unknown"

/-- Function `support_multi_pages` of `utility.h`. -/
def support_multi_pages (image_type : ImageType) : Bool :=
  image_type = ImageType.Webp || image_type = ImageType.Tiff ||
  image_type = ImageType.Gif || image_type = ImageType.Pdf ||
  image_type = ImageType.Heif || image_type = ImageType.Magick

/-- Function `support_alpha_channel` of `utility.h`. -/
def support_alpha_channel (image_type : ImageType) : Bool :=
  image_type = ImageType.Png || image_type = ImageType.Webp ||
  image_type = ImageType.Heif || image_type = ImageType.Tiff ||
  image_type = ImageType.Gif

/-- Function `calculate_position` of `utility.h`: pure integer arithmetic on the
anchor; C++ `int` division truncates toward zero, i.e. `Int.tdiv`. -/
def calculate_position (in_width in_height out_width out_height : ℤ)
    (pos : Position) : ℤ × ℤ :=
  match pos with
  | Position.Top => (Int.tdiv (out_width - in_width) 2, 0)
  | Position.Right => (out_width - in_width, Int.tdiv (out_height - in_height) 2)
  | Position.Bottom => (Int.tdiv (out_width - in_width) 2, out_height - in_height)
  | Position.Left => (0, Int.tdiv (out_height - in_height) 2)
  | Position.TopRight => (out_width - in_width, 0)
  | Position.BottomRight => (out_width - in_width, out_height - in_height)
  | Position.BottomLeft => (0, out_height - in_height)
  | Position.TopLeft => (0, 0)
  | Position.Centre =>
      (Int.tdiv (out_width - in_width) 2, Int.tdiv (out_height - in_height) 2)

/-- The fields of `VipsProgress` read by `image_eval_cb`: `run` (elapsed
seconds of evaluation) and `percent` (percent complete). -/
structure VipsProgress where
  run : ℤ
  percent : ℤ
deriving DecidableEq, Repr

/-- The state `image_eval_cb` can observe and write: the kill flag of the
image being calculated (`vips_image_set_kill`), the thread error log
(`vips_error` appends to it), and the `time_t` budget cell that
`setup_timeout_handler` attached to the image. -/
structure EvalState where
  killed : Bool
  errors : List String
  timeout : ℤ
deriving DecidableEq, Repr

/-- The message `image_eval_cb` passes to `vips_error`, with the printf
holes `%ld`/`%d`/`%d%%` filled by the budget, the elapsed seconds and the
percent complete, and `%s` pluralizing "second". -/
def timeout_error_message (timeout run percent : ℤ) : String :=
  "Maximum image processing time of " ++ toString timeout ++ " second" ++
  (if timeout > 1 then "s" else "") ++ " exceeded with " ++ toString run ++
  " second" ++ (if run > 1 then "s" else "") ++
  ". Operation was canceled after " ++ toString percent ++ "% completion"

/-- Function `image_eval_cb` of `utility.h`: if the stored budget is positive and the
elapsed seconds reached it, kill the image, record the error and zero the
budget; otherwise do nothing. -/
def image_eval_cb (progress : VipsProgress) (st : EvalState) : EvalState :=
  if st.timeout > 0 ∧ progress.run ≥ st.timeout then
    { killed := true,
      errors := st.errors ++
        [timeout_error_message st.timeout progress.run progress.percent],
      timeout := 0 }
  else st

/-- The per-handle registration state `setup_timeout_handler` writes: the
`time_t` cell allocated on the image (`VIPS_NEW`), whether the "eval" signal
is connected to `image_eval_cb` (`g_signal_connect`), and whether progress
reporting is enabled (`vips_image_set_progress`). -/
structure HandlerState where
  timeout_cell : Option ℤ
  eval_connected : Bool
  progress_enabled : Bool
deriving DecidableEq, Repr

/-- Function `setup_timeout_handler` of `utility.h`: only when the process timeout is
positive, allocate the budget cell holding it, connect the eval callback and
enable progress reporting; otherwise leave the image untouched. -/
def setup_timeout_handler (image : HandlerState) (process_timeout : ℤ) :
    HandlerState :=
  if process_timeout > 0 then
    { timeout_cell := some process_timeout,
      eval_connected := true,
      progress_enabled := true }
  else image

/-- Function `std::round` of the C++ standard library: round half away from zero, as an integer. -/
def std_round (x : ℚ) : ℤ := if x < 0 then -⌊-x + 1/2⌋ else ⌊x + 1/2⌋

/-- Function `std::clamp(v, lo, hi)` as implemented by the standard library:
`v < lo ? lo : hi < v ? hi : v` (callers must ensure `lo ≤ hi`). -/
def std_clamp (v lo hi : ℤ) : ℤ := if v < lo then lo else if hi < v then hi else v

/-- Function `calculate_focal_point` of `utility.h`, with the C++ `float`/`double`
arithmetic carried out exactly in `ℚ`: recover the scale-down factor
`min(inW/targetW, inH/targetH)`, map the focal fraction to pixel space,
round the candidate offsets and clamp them per axis. -/
def calculate_focal_point (fpx fpy : ℚ) (in_width in_height : ℤ)
    (target_width target_height : ℤ) (image_width image_height : ℤ) : ℤ × ℤ :=
  let ratio_x : ℚ := (in_width : ℚ) / (target_width : ℚ)
  let ratio_y : ℚ := (in_height : ℚ) / (target_height : ℚ)
  let factor := min ratio_x ratio_y
  let center_x := (fpx * (in_width : ℚ)) / factor
  let center_y := (fpy * (in_height : ℚ)) / factor
  let left := std_round (center_x - (target_width : ℚ) / 2)
  let left := std_clamp left 0 (image_width - target_width)
  let top := std_round (center_y - (target_height : ℚ) / 2)
  let top := std_clamp top 0 (image_height - target_height)
  (left, top)

/-- The backend image operations `crop_multi_page` issues, as an explicit
tree: an opaque source handle with its dimensions, `extract_area` (the
resulting image has the size of the requested rectangle) and `arrayjoin`
with a given `across` (column count). -/
inductive VImage where
  | source (width height : ℤ) : VImage
  | extract_area (base : VImage) (left top width height : ℤ) : VImage
  | arrayjoin (pages : List VImage) (across : ℤ) : VImage

mutual

/-- The height the backend reports for an image built by these operations:
a region extraction is as tall as the requested rectangle, and a one-column
`arrayjoin` stacks its pages vertically (only `across = 1` is exercised by
the code under study; other column counts are reported as 0 here). -/
def VImage.height : VImage → ℤ
  | VImage.source _ h => h
  | VImage.extract_area _ _ _ _ h => h
  | VImage.arrayjoin pages across => if across = 1 then heightSum pages else 0

/-- Total height of a list of vertically stacked pages. -/
def heightSum : List VImage → ℤ
  | [] => 0
  | p :: ps => p.height + heightSum ps

end

/-- Function `crop_multi_page` of `utility.h`: fast path when `top == 0` and
`height == page_height` (one full-height region extraction); otherwise
extract the crop rectangle from every page and vertically rejoin the pages
in order (`arrayjoin` with `across = 1`). -/
def crop_multi_page (image : VImage) (left top width height : ℤ)
    (n_pages page_height : ℤ) : VImage :=
  if top = 0 ∧ height = page_height then
    VImage.extract_area image left 0 width image.height
  else
    let pages := (List.range n_pages.toNat).map fun (i : ℕ) =>
      VImage.extract_area image left (page_height * (i : ℤ) + top) width height
    VImage.arrayjoin pages 1

/-- The backend accessors `image_to_json` and its helpers read, as a record:
dimensions, interpretation and band-format nicknames (`vips_enum_nick`),
band count, horizontal resolution, and the optional metadata tags (a tag is
`some` exactly when `get_typeof` reports it present). -/
structure VImageMeta where
  width : ℤ
  height : ℤ
  interpretation_nick : String
  bands : ℤ
  format_nick : String
  xres : ℚ
  chroma_subsample : Option String
  interlaced : Bool
  palette_bit_depth : Option ℤ
  n_pages : Option ℤ
  page_height_tag : Option ℤ
  loop_tag : Option ℤ
  delay : Option (List ℤ)
  heif_primary : Option ℤ
  icc_present : Bool
  alpha : Bool
  orientation_tag : Option ℤ
deriving DecidableEq, Repr

/-- Function `has_profile` of `utility.h`: the ICC profile tag is present. -/
def has_profile (image : VImageMeta) : Bool := image.icc_present

/-- Function `has_density` of `utility.h`: `image.xres() > 1.0`. -/
def has_density (image : VImageMeta) : Bool := image.xres > 1

/-- Function `get_density` of `utility.h`: `round(xres * 25.4)` as an integer. -/
def get_density (image : VImageMeta) : ℤ := std_round (image.xres * (254 / 10))

/-- Function `exif_orientation` of `utility.h`: the raw orientation tag if present,
else 0. -/
def exif_orientation (image : VImageMeta) : ℤ :=
  match image.orientation_tag with
  | some v => v
  | none => 0

/-- The delay-array body `image_to_json` prints: each per-frame delay,
followed by "," unless it is the last one. -/
def renderDelays : List ℤ → String
  | [] => ""
  | [d] => toString d
  | d :: ds => toString d ++ "," ++ renderDelays ds

/-- Function `image_to_json` of `utility.h`: one-line JSON, fragments appended in
source order, conditional fragments emitted only when the backing tag or
datum is present. A C++ `get_typeof(tag) != 0` presence test is the
`isSome` of the corresponding optional field, and the guarded
`get_string`/`get_int`/`get_array_int` read is its `getD` (the default is
never reached: every read sits under the matching presence test). -/
def image_to_json (image : VImageMeta) (image_type : ImageType) : String :=
  "\x7b" ++
  "\"format\":\"" ++ image_type_id image_type ++ "\"," ++
  "\"width\":" ++ toString image.width ++ "," ++
  "\"height\":" ++ toString image.height ++ "," ++
  "\"space\":\"" ++ image.interpretation_nick ++ "\"," ++
  "\"channels\":" ++ toString image.bands ++ "," ++
  "\"depth\":\"" ++ image.format_nick ++ "\"," ++
  (if has_density image then
    "\"density\":" ++ toString (get_density image) ++ ","
   else "") ++
  (if image.chroma_subsample.isSome then
    "\"chromaSubsampling\":\"" ++ image.chroma_subsample.getD "" ++ "\","
   else "") ++
  "\"isProgressive\":" ++ (if image.interlaced then "true" else "false") ++ "," ++
  (if image.palette_bit_depth.isSome then
    "\"paletteBitDepth\":" ++ toString (image.palette_bit_depth.getD 0) ++ ","
   else "") ++
  (if image.n_pages.isSome then
    "\"pages\":" ++ toString (image.n_pages.getD 0) ++ ","
   else "") ++
  (if image.page_height_tag.isSome then
    "\"pageHeight\":" ++ toString (image.page_height_tag.getD 0) ++ ","
   else "") ++
  (if image.loop_tag.isSome then
    "\"loop\":" ++ toString (image.loop_tag.getD 0) ++ ","
   else "") ++
  (if image.delay.isSome then
    "\"delay\":[" ++ renderDelays (image.delay.getD []) ++ "],"
   else "") ++
  (if image.heif_primary.isSome then
    "\"pagePrimary\":" ++ toString (image.heif_primary.getD 0) ++ ","
   else "") ++
  "\"hasProfile\":" ++ (if has_profile image then "true" else "false") ++ "," ++
  "\"hasAlpha\":" ++ (if image.alpha then "true" else "false") ++ "," ++
  "\"orientation\":" ++ toString (exif_orientation image) ++ "\x7d"

/-- The ordered member list underlying `image_to_json`: each entry pairs a
key of the fixed order with the member text the function emits for it (its
trailing comma included — the final `orientation` member carries none), and
each conditional entry is present exactly when its backing datum is. -/
def jsonFields (image : VImageMeta) (image_type : ImageType) :
    List (String × String) :=
  [("format", "\"format\":\"" ++ image_type_id image_type ++ "\","),
   ("width", "\"width\":" ++ toString image.width ++ ","),
   ("height", "\"height\":" ++ toString image.height ++ ","),
   ("space", "\"space\":\"" ++ image.interpretation_nick ++ "\","),
   ("channels", "\"channels\":" ++ toString image.bands ++ ","),
   ("depth", "\"depth\":\"" ++ image.format_nick ++ "\",")] ++
  (if has_density image then
    [("density", "\"density\":" ++ toString (get_density image) ++ ",")]
   else []) ++
  (if image.chroma_subsample.isSome then
    [("chromaSubsampling",
      "\"chromaSubsampling\":\"" ++ image.chroma_subsample.getD "" ++ "\",")]
   else []) ++
  [("isProgressive", "\"isProgressive\":" ++
    (if image.interlaced then "true" else "false") ++ ",")] ++
  (if image.palette_bit_depth.isSome then
    [("paletteBitDepth",
      "\"paletteBitDepth\":" ++ toString (image.palette_bit_depth.getD 0) ++ ",")]
   else []) ++
  (if image.n_pages.isSome then
    [("pages", "\"pages\":" ++ toString (image.n_pages.getD 0) ++ ",")]
   else []) ++
  (if image.page_height_tag.isSome then
    [("pageHeight",
      "\"pageHeight\":" ++ toString (image.page_height_tag.getD 0) ++ ",")]
   else []) ++
  (if image.loop_tag.isSome then
    [("loop", "\"loop\":" ++ toString (image.loop_tag.getD 0) ++ ",")]
   else []) ++
  (if image.delay.isSome then
    [("delay", "\"delay\":[" ++ renderDelays (image.delay.getD []) ++ "],")]
   else []) ++
  (if image.heif_primary.isSome then
    [("pagePrimary",
      "\"pagePrimary\":" ++ toString (image.heif_primary.getD 0) ++ ",")]
   else []) ++
  [("hasProfile", "\"hasProfile\":" ++
     (if has_profile image then "true" else "false") ++ ","),
   ("hasAlpha", "\"hasAlpha\":" ++
     (if image.alpha then "true" else "false") ++ ","),
   ("orientation", "\"orientation\":" ++ toString (exif_orientation image))]

/-- Concatenation of a list of strings, in order. -/
def concatAll : List String → String
  | [] => ""
  | s :: rest => s ++ concatAll rest

/-- A metadata fixture whose only optional entries are the density (xres 3,
density round(3*25.4) = 76) and the delay array. -/
def exMeta : VImageMeta :=
  { width := 640, height := 480, interpretation_nick := "srgb", bands := 3,
    format_nick := "uchar", xres := 3, chroma_subsample := none,
    interlaced := false, palette_bit_depth := none, n_pages := none,
    page_height_tag := none, loop_tag := none, delay := some [10, 20],
    heif_primary := none, icc_present := true, alpha := false,
    orientation_tag := some 1 }

/-- The fixed key order of the descriptive document. -/
def jsonKeyOrder : List String :=
  ["format", "width", "height", "space", "channels", "depth", "density",
   "chromaSubsampling", "isProgressive", "paletteBitDepth", "pages",
   "pageHeight", "loop", "delay", "pagePrimary", "hasProfile", "hasAlpha",
   "orientation"]

/-- Is the datum backing a given key present on the image? Always-present
keys map to `true`; keys outside the document map to `false`. -/
def keyPresent (image : VImageMeta) (k : String) : Bool :=
  if k = "density" then has_density image
  else if k = "chromaSubsampling" then image.chroma_subsample.isSome
  else if k = "paletteBitDepth" then image.palette_bit_depth.isSome
  else if k = "pages" then image.n_pages.isSome
  else if k = "pageHeight" then image.page_height_tag.isSome
  else if k = "loop" then image.loop_tag.isSome
  else if k = "delay" then image.delay.isSome
  else if k = "pagePrimary" then image.heif_primary.isSome
  else
    k == "format" || k == "width" || k == "height" || k == "space" ||
    k == "channels" || k == "depth" || k == "isProgressive" ||
    k == "hasProfile" || k == "hasAlpha" || k == "orientation"

/-- C5: `calculate_position` returns exactly the offsets of the spec table
for every anchor (integer division truncating toward zero); the Position
enumeration of the spec is closed, so the default switch arm is reached
only by `Centre`, which therefore also stands for "any unlisted anchor".
The 50/50/100/100 examples instantiate the table. -/
theorem calculate_position_matches_spec_table
    (inW inH outW outH : ℤ) :
    calculate_position inW inH outW outH Position.TopLeft = (0, 0) ∧
    calculate_position inW inH outW outH Position.Top =
      (Int.tdiv (outW - inW) 2, 0) ∧
    calculate_position inW inH outW outH Position.TopRight = (outW - inW, 0) ∧
    calculate_position inW inH outW outH Position.Left =
      (0, Int.tdiv (outH - inH) 2) ∧
    calculate_position inW inH outW outH Position.Centre =
      (Int.tdiv (outW - inW) 2, Int.tdiv (outH - inH) 2) ∧
    calculate_position inW inH outW outH Position.Right =
      (outW - inW, Int.tdiv (outH - inH) 2) ∧
    calculate_position inW inH outW outH Position.BottomLeft =
      (0, outH - inH) ∧
    calculate_position inW inH outW outH Position.Bottom =
      (Int.tdiv (outW - inW) 2, outH - inH) ∧
    calculate_position inW inH outW outH Position.BottomRight =
      (outW - inW, outH - inH) ∧
    calculate_position 50 50 100 100 Position.TopLeft = (0, 0) ∧
    calculate_position 50 50 100 100 Position.Centre = (25, 25) ∧
    calculate_position 50 50 100 100 Position.BottomRight = (50, 50) ∧
    calculate_position 50 50 100 100 Position.Right = (50, 25) := by
  refine ⟨rfl, rfl, rfl, rfl, rfl, rfl, rfl, rfl, rfl, ?_, ?_, ?_, ?_⟩ <;> decide

/-- C9: with a non-positive process timeout, `setup_timeout_handler` is a
no-op on the image handle — no budget cell, no eval-callback connection, no
progress enabling; with a positive timeout it performs all three
registrations. -/
theorem setup_timeout_handler_nonpositive_noop
    (image : HandlerState) (process_timeout : ℤ) :
    (process_timeout ≤ 0 → setup_timeout_handler image process_timeout = image) ∧
    (process_timeout > 0 → setup_timeout_handler image process_timeout =
      { timeout_cell := some process_timeout,
        eval_connected := true,
        progress_enabled := true }) := by
  constructor
  · intro h
    have hneg : ¬ process_timeout > 0 := by omega
    simp [setup_timeout_handler, hneg]
  · intro h
    simp [setup_timeout_handler, h]

/-- Witness for C9 at concrete inputs: timeout 0 leaves a pristine handle
untouched; timeout 5 registers the cell, the callback and progress. -/
theorem setup_timeout_handler_nonpositive_noop_witness :
    setup_timeout_handler ⟨none, false, false⟩ 0 = ⟨none, false, false⟩ ∧
    setup_timeout_handler ⟨none, false, false⟩ 5 = ⟨some 5, true, true⟩ :=
  ⟨(setup_timeout_handler_nonpositive_noop ⟨none, false, false⟩ 0).1 (by norm_num),
   (setup_timeout_handler_nonpositive_noop ⟨none, false, false⟩ 5).2 (by norm_num)⟩

/-- C1: for a positive budget `b` stored in the timeout cell,
`image_eval_cb` does nothing while elapsed < `b`; on the first tick with
elapsed ≥ `b` it marks the image killed, appends the descriptive error
(which contains the elapsed seconds and the percent complete) and zeroes
the budget; once the budget is 0 every later tick is a no-op. With `b` = 2
the tick at elapsed 1 does not trip, the tick at elapsed 2 trips once, and
a further tick at elapsed 3 changes nothing. -/
theorem image_eval_cb_trips_exactly_once
    (b : ℤ) (st : EvalState) (p : VipsProgress)
    (hb : st.timeout = b) (hpos : b > 0) :
    (p.run < b → image_eval_cb p st = st) ∧
    (p.run ≥ b →
      image_eval_cb p st =
        { killed := true,
          errors := st.errors ++ [timeout_error_message b p.run p.percent],
          timeout := 0 } ∧
      ∃ s₁ s₂ s₃, timeout_error_message b p.run p.percent =
        s₁ ++ toString p.run ++ s₂ ++ toString p.percent ++ s₃) ∧
    (∀ q st₀, st₀.timeout = 0 → image_eval_cb q st₀ = st₀) ∧
    image_eval_cb ⟨1, 10⟩ ⟨false, [], 2⟩ = ⟨false, [], 2⟩ ∧
    image_eval_cb ⟨2, 50⟩ ⟨false, [], 2⟩ =
      ⟨true, [timeout_error_message 2 2 50], 0⟩ ∧
    image_eval_cb ⟨3, 90⟩ ⟨true, [timeout_error_message 2 2 50], 0⟩ =
      ⟨true, [timeout_error_message 2 2 50], 0⟩ := by
  subst hb
  refine ⟨?_, ?_, ?_, ?_, ?_, ?_⟩
  · intro h
    have hcond : ¬(st.timeout > 0 ∧ p.run ≥ st.timeout) := by omega
    simp [image_eval_cb, hcond]
  · intro h
    constructor
    · have hcond : st.timeout > 0 ∧ p.run ≥ st.timeout := ⟨hpos, h⟩
      simp [image_eval_cb, hcond]
    · refine ⟨"Maximum image processing time of " ++ toString st.timeout ++
        " second" ++ (if st.timeout > 1 then "s" else "") ++ " exceeded with ",
        " second" ++ (if p.run > 1 then "s" else "") ++
        ". Operation was canceled after ", "% completion", ?_⟩
      simp [timeout_error_message, String.append_assoc]
  · intro q st₀ h₀
    have hcond : ¬(st₀.timeout > 0 ∧ q.run ≥ st₀.timeout) := by omega
    simp [image_eval_cb, hcond]
  · simp [image_eval_cb]
  · simp [image_eval_cb]
  · simp [image_eval_cb]

/-- Witness for C1 at budget 2 and a tick at elapsed 2 / 50 %: the callback
trips, and the recorded message contains both numbers. -/
theorem image_eval_cb_trips_exactly_once_witness :
    image_eval_cb ⟨2, 50⟩ ⟨false, [], 2⟩ =
      { killed := true,
        errors := [] ++ [timeout_error_message 2 2 50],
        timeout := 0 } ∧
    ∃ s₁ s₂ s₃, timeout_error_message 2 2 50 =
      s₁ ++ toString (2 : ℤ) ++ s₂ ++ toString (50 : ℤ) ++ s₃ :=
  (image_eval_cb_trips_exactly_once 2 ⟨false, [], 2⟩ ⟨2, 50⟩ rfl
    (by norm_num)).2.1 (by norm_num)

/-- C8: under either GIF build flavour, `determine_image_type` agrees with
a first-match lookup of the fixed ordered loader table, so it is total and
deterministic; any loader matching no known head yields `Unknown` with no
error, in particular "VipsForeignLoadFoo". -/
theorem determine_image_type_total_prefix_table
    (vipsAtLeast8_11 : Bool) (loader : String) :
    determine_image_type vipsAtLeast8_11 loader =
      (match (loaderTable vipsAtLeast8_11).find?
          (fun e => starts_with loader e.1) with
       | some e => e.2
       | none => ImageType.Unknown) ∧
    ((∀ e ∈ loaderTable vipsAtLeast8_11, ¬ starts_with loader e.1) →
      determine_image_type vipsAtLeast8_11 loader = ImageType.Unknown) ∧
    determine_image_type vipsAtLeast8_11 "VipsForeignLoadFoo" =
      ImageType.Unknown := by
  have htable : determine_image_type vipsAtLeast8_11 loader =
      (match (loaderTable vipsAtLeast8_11).find?
          (fun e => starts_with loader e.1) with
       | some e => e.2
       | none => ImageType.Unknown) := by
    rw [determine_image_type]
    split_ifs with h1 h2 h3 h4 h5 h6 h7 h8 h9 <;>
      simp_all [loaderTable, List.find?]
  refine ⟨htable, ?_, ?_⟩
  · intro hnone
    rw [htable]
    have : (loaderTable vipsAtLeast8_11).find?
        (fun e => starts_with loader e.1) = none := by
      rw [List.find?_eq_none]
      intro a ha
      simpa using hnone a ha
    rw [this]
  · cases vipsAtLeast8_11 <;> decide

/-- Witness for C8: a loader name matching none of the table heads yields
`Unknown` through the no-match branch of the theorem. -/
theorem determine_image_type_total_prefix_table_witness :
    determine_image_type true "SomeRandomLoader" = ImageType.Unknown :=
  (determine_image_type_total_prefix_table true "SomeRandomLoader").2.1
    (by decide)

set_option maxHeartbeats 3200000 in
/-- C7: for every mask, `supported_savers_string` equals the ", "-join, in
ascending bit order over bits 1..7, of the dot-stripped extensions of the
`Output` values `1<<i` at the set bits of the mask; the empty mask yields the
empty string, and the mask with bits 1 and 3 set (Jpeg and Avif) yields "jpg, avif". -/
theorem supported_savers_string_joins_set_bits (msk : Nat) :
    supported_savers_string msk =
      commaJoin
        (((List.range' 1 7).filter fun i => msk &&& (1 <<< i) != 0).map
          fun i => (determine_image_extension (outputOfValue (1 <<< i))).drop 1) ∧
    supported_savers_string 0 = "" ∧
    supported_savers_string ((1 <<< 1) ||| (1 <<< 3)) = "jpg, avif" := by
  refine ⟨?_, by rfl, by rfl⟩
  have hrange : List.range' 1 7 = [1, 2, 3, 4, 5, 6, 7] := by rfl
  have d1 : (".jpg").drop 1 = "jpg" := rfl
  have d2 : (".webp").drop 1 = "webp" := rfl
  have d3 : (".avif").drop 1 = "avif" := rfl
  have d4 : (".tiff").drop 1 = "tiff" := rfl
  have d5 : (".gif").drop 1 = "gif" := rfl
  have d6 : (".png").drop 1 = "png" := rfl
  have d7 : (".json").drop 1 = "json" := rfl
  rw [supported_savers_string, hrange]
  by_cases h1 : msk &&& 2 = 0 <;>
    by_cases h2 : msk &&& 4 = 0 <;>
    by_cases h3 : msk &&& 8 = 0 <;>
    by_cases h4 : msk &&& 16 = 0 <;>
    by_cases h5 : msk &&& 32 = 0 <;>
    by_cases h6 : msk &&& 64 = 0 <;>
    by_cases h7 : msk &&& 128 = 0 <;>
    simp [h1, h2, h3, h4, h5, h6, h7, commaJoin, bne_iff_ne,
      determine_image_extension, outputOfValue, d1, d2, d3, d4, d5, d6, d7]

lemma heightSum_append (xs ys : List VImage) :
    heightSum (xs ++ ys) = heightSum xs + heightSum ys := by
  induction xs with
  | nil => simp [heightSum]
  | cons p ps ih => simp [heightSum, ih]; ring

lemma heightSum_extracted (img : VImage) (l w h t ph : ℤ) (k : ℕ) :
    heightSum ((List.range k).map fun (i : ℕ) =>
      VImage.extract_area img l (ph * (i : ℤ) + t) w h) = (k : ℤ) * h := by
  induction k with
  | zero => simp [heightSum]
  | succ n ih =>
      rw [List.range_succ, List.map_append, heightSum_append, ih]
      simp [heightSum, VImage.height]
      ring

/-- C3: `crop_multi_page` takes the fast path exactly when `top = 0` and
`height = pageHeight`, in which case it is a single full-height region
extraction with no join; otherwise it extracts the rectangle
(left, pageHeight*i + top, width, height) for every page i < nPages and
vertically joins the pages in order (one column). The worked example
`top=5, height=30, pageHeight=40, nPages=3` yields exactly the three
30-tall regions joined into a 90-tall result. -/
theorem crop_multi_page_two_paths
    (img : VImage) (l t w h n ph : ℤ) :
    (t = 0 ∧ h = ph →
      crop_multi_page img l t w h n ph =
        VImage.extract_area img l 0 w img.height) ∧
    (¬(t = 0 ∧ h = ph) →
      crop_multi_page img l t w h n ph =
        VImage.arrayjoin
          ((List.range n.toNat).map fun (i : ℕ) =>
            VImage.extract_area img l (ph * (i : ℤ) + t) w h) 1) ∧
    crop_multi_page (VImage.source 30 120) 0 5 20 30 3 40 =
      VImage.arrayjoin
        [VImage.extract_area (VImage.source 30 120) 0 (40 * 0 + 5) 20 30,
         VImage.extract_area (VImage.source 30 120) 0 (40 * 1 + 5) 20 30,
         VImage.extract_area (VImage.source 30 120) 0 (40 * 2 + 5) 20 30] 1 ∧
    (crop_multi_page (VImage.source 30 120) 0 5 20 30 3 40).height = 90 := by
  refine ⟨?_, ?_, ?_, ?_⟩
  · intro hc
    simp [crop_multi_page, hc]
  · intro hc
    simp [crop_multi_page, hc]
  · have hc : ¬((5 : ℤ) = 0 ∧ (30 : ℤ) = 40) := by norm_num
    simp [crop_multi_page, hc, List.range_succ]
  · have hc : ¬((5 : ℤ) = 0 ∧ (30 : ℤ) = 40) := by norm_num
    simp [crop_multi_page, hc, List.range_succ, VImage.height, heightSum]

/-- Witness for C3: the fast path on a 3-page 120-tall image with
`top=0, height=pageHeight=40` is the single full-height extraction; the
general path on the worked example is the three-region join. -/
theorem crop_multi_page_two_paths_witness :
    crop_multi_page (VImage.source 30 120) 5 0 20 40 3 40 =
      VImage.extract_area (VImage.source 30 120) 5 0 20
        (VImage.source 30 120).height ∧
    crop_multi_page (VImage.source 30 120) 0 5 20 30 3 40 =
      VImage.arrayjoin
        ((List.range (3 : ℤ).toNat).map fun (i : ℕ) =>
          VImage.extract_area (VImage.source 30 120) 0 (40 * (i : ℤ) + 5) 20 30)
        1 :=
  ⟨(crop_multi_page_two_paths (VImage.source 30 120) 5 0 20 40 3 40).1
      ⟨rfl, rfl⟩,
   (crop_multi_page_two_paths (VImage.source 30 120) 0 5 20 30 3 40).2.1
      (by norm_num)⟩

/-- C4: for `nPages ≥ 1` on a filmstrip image of total height
`nPages * pageHeight`, the result of `crop_multi_page` has total height
`nPages * pageHeight` (unchanged) on the fast path and `nPages * height`
on the general path. -/
theorem crop_multi_page_result_height
    (img : VImage) (l t w h n ph : ℤ)
    (hn : 1 ≤ n) (himg : img.height = n * ph) :
    (t = 0 ∧ h = ph →
      (crop_multi_page img l t w h n ph).height = n * ph) ∧
    (¬(t = 0 ∧ h = ph) →
      (crop_multi_page img l t w h n ph).height = n * h) := by
  constructor
  · intro hc
    simp [crop_multi_page, hc, VImage.height, himg]
  · intro hc
    simp only [crop_multi_page, hc, if_false, ite_false, if_neg,
      not_false_iff]
    have hcast : ((n.toNat : ℤ)) = n := by omega
    simp [VImage.height, heightSum_extracted, hcast]

/-- Witness for C4: fast path keeps the 120-tall 3-page source height;
general path yields 3 * 30 = 90. -/
theorem crop_multi_page_result_height_witness :
    (crop_multi_page (VImage.source 30 120) 5 0 20 40 3 40).height = 120 ∧
    (crop_multi_page (VImage.source 30 120) 0 5 20 30 3 40).height = 90 := by
  constructor
  · have h := (crop_multi_page_result_height (VImage.source 30 120) 5 0 20 40
      3 40 (by norm_num) (by simp [VImage.height])).1 ⟨rfl, rfl⟩
    simpa using h
  · have h := (crop_multi_page_result_height (VImage.source 30 120) 0 5 20 30
      3 40 (by norm_num) (by simp [VImage.height])).2 (by norm_num)
    simpa using h

/-- C2: `calculate_focal_point` computes, per axis, the clamp into
`[0, imageDim - targetDim]` of the rounded `center - targetDim/2`, where
`center = (fp * inDim) / factor` and `factor = min(inW/targetW, inH/targetH)`;
the worked example fpx=fpy=0.5, inW=inH=200, targetW=targetH=100,
imageW=imageH=100 passes through factor 2, centers (50,50), pre-clamp
offsets (0,0) and result (0,0). -/
theorem calculate_focal_point_formula
    (fpx fpy : ℚ) (inW inH tW tH imgW imgH : ℤ) :
    calculate_focal_point fpx fpy inW inH tW tH imgW imgH =
      (std_clamp
        (std_round ((fpx * (inW : ℚ)) /
          min ((inW : ℚ) / (tW : ℚ)) ((inH : ℚ) / (tH : ℚ)) - (tW : ℚ) / 2))
        0 (imgW - tW),
       std_clamp
        (std_round ((fpy * (inH : ℚ)) /
          min ((inW : ℚ) / (tW : ℚ)) ((inH : ℚ) / (tH : ℚ)) - (tH : ℚ) / 2))
        0 (imgH - tH)) ∧
    min ((200 : ℚ) / 100) ((200 : ℚ) / 100) = 2 ∧
    ((1 / 2 : ℚ) * 200) / 2 = 50 ∧
    std_round ((50 : ℚ) - (100 : ℚ) / 2) = 0 ∧
    std_clamp 0 0 (100 - 100) = 0 ∧
    calculate_focal_point (1 / 2) (1 / 2) 200 200 100 100 100 100 = (0, 0) := by
  refine ⟨rfl, by norm_num, by norm_num, ?_, ?_, ?_⟩
  · norm_num [std_round]
  · norm_num [std_clamp]
  · norm_num [calculate_focal_point, std_round, std_clamp]

/-- C10: whenever the in/target dimensions are at least 1 and the backend
image is at least as large as the target per axis, the crop offsets of
`calculate_focal_point` stay inside `[0, imageDim - targetDim]` for every
focal input, in or out of [0,1]; when the image is smaller than the target
the clamp bounds are inverted and the guarantee fails, witnessed by
target width 200 on a 100-wide image, where the left offset comes out
-100. -/
theorem calculate_focal_point_offsets_bounded :
    (∀ (fpx fpy : ℚ) (inW inH tW tH imgW imgH : ℤ),
      1 ≤ inW → 1 ≤ inH → 1 ≤ tW → 1 ≤ tH → tW ≤ imgW → tH ≤ imgH →
      0 ≤ (calculate_focal_point fpx fpy inW inH tW tH imgW imgH).1 ∧
      (calculate_focal_point fpx fpy inW inH tW tH imgW imgH).1 ≤ imgW - tW ∧
      0 ≤ (calculate_focal_point fpx fpy inW inH tW tH imgW imgH).2 ∧
      (calculate_focal_point fpx fpy inW inH tW tH imgW imgH).2 ≤ imgH - tH) ∧
    (calculate_focal_point (1 / 2) (1 / 2) 100 100 200 100 100 100).1 =
      -100 := by
  constructor
  · intro fpx fpy inW inH tW tH imgW imgH hinW hinH htW htH hW hH
    have hclamp : ∀ v lo hi : ℤ, lo ≤ hi →
        lo ≤ std_clamp v lo hi ∧ std_clamp v lo hi ≤ hi := by
      intro v lo hi hlh
      unfold std_clamp
      split_ifs <;> omega
    have hx := hclamp
      (std_round ((fpx * (inW : ℚ)) /
        min ((inW : ℚ) / (tW : ℚ)) ((inH : ℚ) / (tH : ℚ)) - (tW : ℚ) / 2))
      0 (imgW - tW) (by omega)
    have hy := hclamp
      (std_round ((fpy * (inH : ℚ)) /
        min ((inW : ℚ) / (tW : ℚ)) ((inH : ℚ) / (tH : ℚ)) - (tH : ℚ) / 2))
      0 (imgH - tH) (by omega)
    exact ⟨hx.1, hx.2, hy.1, hy.2⟩
  · norm_num [calculate_focal_point, std_round, std_clamp]

/-- Witness for C10 at out-of-range focal fractions fpx=2, fpy=-1 on a
200-square source, 100-square target and 150-square image: both offsets
land in [0, 50]. -/
theorem calculate_focal_point_offsets_bounded_witness :
    0 ≤ (calculate_focal_point 2 (-1) 200 200 100 100 150 150).1 ∧
    (calculate_focal_point 2 (-1) 200 200 100 100 150 150).1 ≤ 150 - 100 ∧
    0 ≤ (calculate_focal_point 2 (-1) 200 200 100 100 150 150).2 ∧
    (calculate_focal_point 2 (-1) 200 200 100 100 150 150).2 ≤ 150 - 100 :=
  calculate_focal_point_offsets_bounded.1 2 (-1) 200 200 100 100 150 150
    (by norm_num) (by norm_num) (by norm_num) (by norm_num) (by norm_num)
    (by norm_num)

lemma concatAll_append (xs ys : List String) :
    concatAll (xs ++ ys) = concatAll xs ++ concatAll ys := by
  induction xs with
  | nil => simp [concatAll, String.empty_append]
  | cons a as ih => simp [concatAll, ih, String.append_assoc]

lemma concat_snd_ite (c : Prop) [Decidable c] (k s : String) :
    concatAll ((if c then [(k, s)] else []).map Prod.snd) =
      if c then s else "" := by
  split_ifs <;> simp [concatAll, String.append_empty]

lemma map_fst_ite (c : Prop) [Decidable c] (k s : String) :
    ((if c then [(k, s)] else ([] : List (String × String)))).map Prod.fst =
      if c then [k] else [] := by
  split_ifs <;> simp

lemma ite_singleton_append (c : Prop) [Decidable c] (a : String)
    (r : List String) :
    (if c then [a] else []) ++ r = if c then a :: r else r := by
  split_ifs <;> simp

lemma ite_list_append (c : Prop) [Decidable c] (x y r : List String) :
    (if c then x else y) ++ r = if c then x ++ r else y ++ r := by
  split_ifs <;> rfl

set_option maxHeartbeats 1600000 in
lemma image_to_json_eq_join (m : VImageMeta) (t : ImageType) :
    image_to_json m t =
      "\x7b" ++ concatAll ((jsonFields m t).map Prod.snd) ++ "\x7d" := by
  simp only [image_to_json, jsonFields, List.append_eq, List.append_assoc,
    List.cons_append, List.nil_append, List.map_append, concatAll_append,
    List.map_cons, List.map_nil, concatAll, concat_snd_ite,
    String.append_assoc, String.append_empty, String.empty_append]

set_option maxHeartbeats 1600000 in
lemma jsonFields_keys_filter (m : VImageMeta) (t : ImageType) :
    (jsonFields m t).map Prod.fst = jsonKeyOrder.filter (keyPresent m) := by
  simp only [jsonFields, jsonKeyOrder, keyPresent, List.append_eq,
    List.append_assoc, List.cons_append, List.nil_append, List.map_append,
    List.map_cons, List.map_nil, map_fst_ite, ite_singleton_append,
    ite_list_append, List.filter_cons, List.filter_nil, String.reduceEq,
    String.reduceBEq, eq_self_iff_true, if_true, if_false, Bool.true_or,
    Bool.or_true, Bool.false_or, Bool.or_false]

/-- C6: `image_to_json` emits exactly the members of `jsonFields` in order
between braces, and the emitted keys are the fixed order
format..orientation filtered by presence of the backing datum — so the
always-present keys always appear, each conditional key appears iff its
tag/datum is present, and the order never changes. The fixture with only
density and delay among the optionals emits density before delay and both
before hasProfile. -/
theorem image_to_json_fixed_key_order (m : VImageMeta) (t : ImageType) :
    image_to_json m t =
      "\x7b" ++ concatAll ((jsonFields m t).map Prod.snd) ++ "\x7d" ∧
    (jsonFields m t).map Prod.fst = jsonKeyOrder.filter (keyPresent m) ∧
    (jsonFields exMeta ImageType.Gif).map Prod.fst =
      ["format", "width", "height", "space", "channels", "depth", "density",
       "isProgressive", "delay", "hasProfile", "hasAlpha", "orientation"] ∧
    image_to_json exMeta ImageType.Gif =
      "\x7b\"format\":\"gif\",\"width\":640,\"height\":480,\"space\":\"srgb\",\"channels\":3,\"depth\":\"uchar\",\"density\":76,\"isProgressive\":false,\"delay\":[10,20],\"hasProfile\":true,\"hasAlpha\":false,\"orientation\":1\x7d" := by
  refine ⟨image_to_json_eq_join m t, jsonFields_keys_filter m t, by rfl, ?_⟩
  have hval : get_density exMeta = 76 := by
    norm_num [exMeta, get_density, std_round]
  simp only [image_to_json, hval]
  rfl

end Weserv
